import Mathlib

/-!
Verification of the request-orchestration and fallback-decision logic of
LocalAIHub (src/api.py), as a shallow embedding: pure code translates
directly, the wall clock and the network are explicit inputs, and the
orchestrator state (the request counter) is threaded explicitly.
-/

namespace LocalAIHubModel

/-- The configured backup model name (src/api.py line 20). -/
def DEFAULT_AI_MODEL : String := "llama2"

/-- Checks whether the first list is a prefix of the second, on characters. -/
def isPre : List Char → List Char → Bool
  | [], _ => true
  | _ :: _, [] => false
  | a :: as, b :: bs => a == b && isPre as bs

/-- Checks whether `pat` occurs as a contiguous sublist; this is the
semantics of the Python expression `pat in s` on strings. -/
def hasSub (pat : List Char) : List Char → Bool
  | [] => pat.isEmpty
  | c :: t => isPre pat (c :: t) || hasSub pat t

/-- Python `pat in s` for strings: substring containment. -/
def strContains (s pat : String) : Bool := hasSub pat.data s.data

/-- Python `str.lower` on one character (the two agree on ASCII text, which
is all the fallback rule triggers use). -/
def pyLowerChar (c : Char) : Char :=
  if 65 ≤ c.toNat ∧ c.toNat ≤ 90 then Char.ofNat (c.toNat + 32) else c

/-- Python `str.lower`, character by character. -/
def pyLower (s : String) : String := String.mk (s.data.map pyLowerChar)

/-- Python whitespace as recognized by `str.strip` with no argument (the
ASCII part, which is all the validation claims exercise). -/
def pyIsSpace (c : Char) : Bool :=
  c == ' ' || c == '\t' || c == '\n' || c == '\r' || c == '\x0b' || c == '\x0c'

/-- Python `str.strip()`: drop whitespace from both ends. -/
def pyStrip (s : String) : String :=
  String.mk (((s.data.dropWhile pyIsSpace).reverse.dropWhile pyIsSpace).reverse)

/-- A wall-clock reading: the six fields used by the strftime format
`%Y-%m-%d %H:%M:%S` in src/api.py line 93. -/
structure DateTime where
  year : Nat
  month : Nat
  day : Nat
  hour : Nat
  minute : Nat
  second : Nat
deriving DecidableEq, Repr

/-- A clock reading produced by a real clock: fields in calendar range.
Inside this range the strftime model below agrees with C strftime. -/
def DateTime.Valid (t : DateTime) : Prop :=
  1000 ≤ t.year ∧ t.year ≤ 9999 ∧ 1 ≤ t.month ∧ t.month ≤ 12 ∧
  1 ≤ t.day ∧ t.day ≤ 31 ∧ t.hour ≤ 23 ∧ t.minute ≤ 59 ∧ t.second ≤ 59

instance (t : DateTime) : Decidable t.Valid := by
  unfold DateTime.Valid; infer_instance

/-- The decimal digit character for `n` (meaningful for `n < 10`). -/
def digitChar (n : Nat) : Char := Char.ofNat (48 + n)

/-- Zero-padded two-digit decimal field, as strftime `%m`, `%d`, `%H`, `%M`, `%S`. -/
def pad2d (n : Nat) : List Char := [digitChar (n / 10 % 10), digitChar (n % 10)]

/-- Zero-padded four-digit decimal field, as strftime `%Y` on a calendar year. -/
def pad4d (n : Nat) : List Char :=
  [digitChar (n / 1000 % 10), digitChar (n / 100 % 10),
   digitChar (n / 10 % 10), digitChar (n % 10)]

/-- Model of `datetime.now().strftime(\x27%Y-%m-%d %H:%M:%S\x27)`
(src/api.py line 93) on an explicit clock reading. -/
def strftimeYmdHMS (t : DateTime) : String :=
  String.mk (pad4d t.year ++ [ '-'] ++ pad2d t.month ++ [ '-'] ++ pad2d t.day ++
    [ ' '] ++ pad2d t.hour ++ [ ':'] ++ pad2d t.minute ++ [ ':'] ++ pad2d t.second)

/-- Recognizes the 19-character shape `YYYY-MM-DD HH:MM:SS`. -/
def isYmdHMS (s : String) : Bool :=
  match s.data with
  | [y1, y2, y3, y4, d1, a1, a2, d2, b1, b2, sp, c1, c2, k1, e1, e2, k2, f1, f2] =>
      y1.isDigit && y2.isDigit && y3.isDigit && y4.isDigit && d1 == '-' &&
      a1.isDigit && a2.isDigit && d2 == '-' && b1.isDigit && b2.isDigit &&
      sp == ' ' && c1.isDigit && c2.isDigit && k1 == ':' && e1.isDigit &&
      e2.isDigit && k2 == ':' && f1.isDigit && f2.isDigit
  | _ => false

/-- Python `s[:50]`: the first 50 characters of a string. -/
def pyTake50 (s : String) : String := String.mk (s.data.take 50)

/-- Embedding of `LocalAIHub._create_fallback_response` (src/api.py lines
82-95), with the `datetime.now()` reading made an explicit input `now`. -/
def _create_fallback_response (now : DateTime) (user_input : String) : String :=
  let input_lower := pyLower user_input
  if strContains input_lower "hello" || strContains input_lower "hi" ||
      strContains input_lower "hey" then
    "Hi there! I\x27m your local AI (" ++ DEFAULT_AI_MODEL ++
      ") running offline on your computer."
  else if strContains input_lower "who" || strContains input_lower "what are you" then
    "I\x27m LocalAIHub, your offline AI assistant using the " ++ DEFAULT_AI_MODEL ++
      " model."
  else if strContains input_lower "help" || strContains input_lower "what can you do" then
    "I can answer questions and help with tasks, all offline for privacy and speed."
  else if strContains input_lower "time" then
    "It\x27s currently " ++ strftimeYmdHMS now ++ "."
  else
    "I\x27m your offline AI (" ++ DEFAULT_AI_MODEL ++ "). You said: \x27" ++
      pyTake50 user_input ++ "...\x27 - I\x27m handling this locally for privacy."

/-- What the single `requests.post` to the backend does, classified exactly as
`_query_ollama` classifies outcomes: an HTTP reply (with the optional string
field "response" of its 200 JSON body), a connection error, a timeout, or any
other exception (carrying `str(e)`). -/
inductive BackendOutcome where
  | http (status : Nat) (respField : Option String)
  | connectionError
  | timeout
  | otherError (msg : String)
deriving DecidableEq, Repr

/-- The JSON payload `_query_ollama` posts to the backend (src/api.py 57-61). -/
structure OllamaRequest where
  model : String
  prompt : String
  stream : Bool
deriving DecidableEq, Repr

/-- Embedding of `LocalAIHub._query_ollama` (src/api.py lines 54-80). The
network is the explicit `outcome` input; the function also returns the payload
it posted, so that theorems can speak about what was sent. The pair of
optionals is the Python `(response, error)` tuple. -/
def _query_ollama (outcome : BackendOutcome) (user_input : String)
    (model : String) : OllamaRequest × Option String × Option String :=
  let request_data : OllamaRequest :=
    { model := model, prompt := user_input, stream := false }
  (request_data,
    match outcome with
    | .http status respField =>
        if status == 200 then
          (some (respField.getD "No response generated"), none)
        else
          (none, some ("Ollama API error: " ++ toString status))
    | .connectionError =>
        (none, some "Ollama isn\x27t running - please start it!")
    | .timeout => (none, some "Request took too long")
    | .otherError e => (none, some ("Something went wrong: " ++ e)))

/-- Backend attempts that produce no response text: any non-200 status,
connection refusal, timeout, or other transport exception. -/
def isBackendFailure : BackendOutcome → Bool
  | .http status _ => status != 200
  | .connectionError => true
  | .timeout => true
  | .otherError _ => true

/-- One line of the JSONL interaction log (src/api.py lines 38-46). -/
structure LogEntry where
  timestamp : String
  user_input : String
  ai_response : String
  model : String
  time_taken_seconds : ℚ
  error : Option String
  request_id : Nat
deriving DecidableEq, Repr

/-- Python `round(q, 3)` on a nonnegative duration, modelled on rationals. -/
def round3 (q : ℚ) : ℚ := (round (q * 1000) : ℤ) / 1000

/-- The orchestrator state (src/api.py lines 32-34). -/
structure LocalAIHub where
  start_time : ℚ
  total_requests : Nat
deriving DecidableEq, Repr

/-- `LocalAIHub.__init__` at process start: counter initialized to 0. -/
def LocalAIHub.init (now : ℚ) : LocalAIHub :=
  { start_time := now, total_requests := 0 }

/-- Embedding of `LocalAIHub._save_interaction` (src/api.py lines 36-52).
The file write either succeeds (`logOk = true`) or raises; the function is
total either way: it returns the appended line (or nothing) together with the
diagnostic it prints when the write raised with text `logFailMsg`. -/
def _save_interaction (hub : LocalAIHub) (logOk : Bool) (logFailMsg : String)
    (timestamp user_input ai_response model : String) (time_taken : ℚ)
    (error : Option String) : Option LogEntry × Option String :=
  let log_entry : LogEntry :=
    { timestamp := timestamp, user_input := user_input,
      ai_response := ai_response, model := model,
      time_taken_seconds := round3 time_taken, error := error,
      request_id := hub.total_requests }
  if logOk then (some log_entry, none)
  else (none, some ("Could not save log: " ++ logFailMsg))

/-- External-world inputs consumed by one `generate_response` call. -/
structure GenEnv where
  outcome : BackendOutcome
  now : DateTime
  logTimestamp : String
  t0 : ℚ
  t1 : ℚ
  logOk : Bool
  logFailMsg : String
deriving Repr

/-- The dict returned by `generate_response` (src/api.py lines 118-124). -/
structure GenerationResult where
  response : String
  model : String
  time_taken_seconds : ℚ
  offline : Bool
  request_id : Nat
deriving DecidableEq, Repr

/-- Everything one `generate_response` call produces: the returned dict, the
new orchestrator state, the log line appended (if the write succeeded), the
diagnostic printed (if it failed), and the payload posted to the backend. -/
structure GenReturn where
  result : GenerationResult
  hub : LocalAIHub
  logged : Option LogEntry
  diagnostic : Option String
  sent : OllamaRequest
deriving Repr

/-- Embedding of `LocalAIHub.generate_response` (src/api.py lines 97-124).
`env.t0` and `env.t1` are the two `time.time()` readings; the counter
increment (line 100) happens before the backend attempt, and the `request_id`
stored in both the log entry and the returned dict is the value of
`self.total_requests` read afterwards. -/
def generate_response (env : GenEnv) (hub : LocalAIHub) (user_input : String)
    (model : String) : GenReturn :=
  let hub1 : LocalAIHub := { hub with total_requests := hub.total_requests + 1 }
  let q := _query_ollama env.outcome user_input model
  let fb : String × String × Option String :=
    match q.2.1 with
    | none => (_create_fallback_response env.now user_input,
               "fallback-response", q.2.2)
    | some r => (r, model, none)
  let time_taken := env.t1 - env.t0
  let saved := _save_interaction hub1 env.logOk env.logFailMsg env.logTimestamp
      user_input fb.1 fb.2.1 time_taken fb.2.2
  { result :=
      { response := fb.1, model := fb.2.1,
        time_taken_seconds := round3 time_taken, offline := true,
        request_id := hub1.total_requests },
    hub := hub1, logged := saved.1, diagnostic := saved.2, sent := q.1 }

/-- The wire response of the `/generate` route: 200 with the result dict, or
an error status with a message. -/
inductive HttpResponse where
  | ok (result : GenerationResult)
  | error (status : Nat) (msg : String)
deriving DecidableEq, Repr

/-- The parsed JSON body of a `/generate` request: its optional string
fields "prompt" and "model". -/
structure RequestBody where
  prompt : Option String
  model : Option String
deriving DecidableEq, Repr

/-- Everything the `/generate` handler produces for one request. -/
structure HandlerReturn where
  response : HttpResponse
  hub : LocalAIHub
  logged : Option LogEntry
  sent : Option OllamaRequest
deriving Repr

/-- Embedding of the `/generate` route handler (src/api.py lines 153-169).
`data = none` models a missing or falsy JSON body; `pyStrip` is used only in
the emptiness test, exactly as `str.strip` is in the source. -/
def generate (env : GenEnv) (hub : LocalAIHub) (data : Option RequestBody) :
    HandlerReturn :=
  match data with
  | none =>
      { response := .error 400 "Please include a \x27prompt\x27 in your request",
        hub := hub, logged := none, sent := none }
  | some body =>
      match body.prompt with
      | none =>
          { response := .error 400 "Please include a \x27prompt\x27 in your request",
            hub := hub, logged := none, sent := none }
      | some user_input =>
          let model := body.model.getD DEFAULT_AI_MODEL
          if pyStrip user_input == "" then
            { response := .error 400 "Prompt cannot be empty",
              hub := hub, logged := none, sent := none }
          else
            let g := generate_response env hub user_input model
            { response := .ok g.result, hub := g.hub, logged := g.logged,
              sent := some g.sent }

/-- One call of a single-threaded call sequence. -/
structure CallInput where
  env : GenEnv
  user_input : String
  model : String

/-- Runs a sequence of `generate_response` calls on one orchestrator
instance, threading the state. -/
def runCalls (hub : LocalAIHub) : List CallInput → List GenReturn
  | [] => []
  | c :: rest =>
      let g := generate_response c.env hub c.user_input c.model
      g :: runCalls g.hub rest

/-- The log file contents after a call sequence: the lines whose writes
succeeded, in call order. -/
def logFile (rets : List GenReturn) : List LogEntry := rets.filterMap (·.logged)

/-- Thread identifier for the two-caller interleaving model. -/
inductive Tid where
  | a
  | b
deriving DecidableEq, Repr

/-- Shared-counter view of one in-flight `generate_response` call: how many
of its two shared-counter accesses it has performed, and the `request_id` it
returns. Access 0 is `self.total_requests += 1` (src/api.py line 100); access
1 is the read of `self.total_requests` at line 123 whose value the returned
dict carries. The backend attempt between them touches no shared state. -/
structure ThreadView where
  stepsDone : Nat
  reqId : Option Nat
deriving DecidableEq, Repr

/-- The shared counter together with both callers\x27 progress. -/
structure ConcState where
  total_requests : Nat
  a : ThreadView
  b : ThreadView
deriving DecidableEq, Repr

/-- Both callers about to start, counter at 0. -/
def ConcState.init : ConcState :=
  { total_requests := 0, a := ⟨0, none⟩, b := ⟨0, none⟩ }

/-- Executes one thread\x27s next shared-counter access. This is generous to
the code: it treats the increment itself as one indivisible step. -/
def stepThreadView (counter : Nat) (v : ThreadView) : Nat × ThreadView :=
  match v.stepsDone with
  | 0 => (counter + 1, { v with stepsDone := 1 })
  | 1 => (counter, { stepsDone := 2, reqId := some counter })
  | _ => (counter, v)

/-- One scheduler step: the named thread performs its next access. -/
def step (s : ConcState) : Tid → ConcState
  | .a =>
      let r := stepThreadView s.total_requests s.a
      { s with total_requests := r.1, a := r.2 }
  | .b =>
      let r := stepThreadView s.total_requests s.b
      { s with total_requests := r.1, b := r.2 }

/-- Runs a schedule (an interleaving of the two callers) from the start. -/
def runSched (sched : List Tid) : ConcState := sched.foldl step ConcState.init

/-- A concrete clock reading used by witnesses. -/
def T0 : DateTime := ⟨2024, 5, 17, 9, 30, 45⟩

/-- A second clock reading, one second later than `T1x`. -/
def T1x : DateTime := ⟨2024, 5, 17, 9, 30, 45⟩

/-- One second after `T1x`. -/
def T2x : DateTime := ⟨2024, 5, 17, 9, 30, 46⟩

/-- A benign environment used by witnesses: backend unreachable, log healthy. -/
def envW : GenEnv :=
  { outcome := .connectionError, now := T0, logTimestamp := "2024-05-17T09:30:45",
    t0 := 2, t1 := 3, logOk := true, logFailMsg := "disk full" }

/-- A two-call single-threaded sequence used by witnesses. -/
def callsW : List CallInput :=
  [{ env := envW, user_input := "Hello", model := "llama2" },
   { env := envW, user_input := "Tell me a joke", model := "llama2" }]

/- Helper lemmas. -/

theorem round3_nonneg (q : ℚ) (h : 0 ≤ q) : 0 ≤ round3 q := by
  unfold round3
  have h1 : (0 : ℤ) ≤ round (q * 1000) := by
    rw [round_eq]
    apply Int.le_floor.mpr
    push_cast
    linarith
  exact div_nonneg (by exact_mod_cast h1) (by norm_num)

theorem query_ollama_of_failure (outcome : BackendOutcome) (ui m : String)
    (h : isBackendFailure outcome = true) :
    (_query_ollama outcome ui m).2.1 = none ∧
    (_query_ollama outcome ui m).2.2.isSome = true := by
  cases outcome <;> simp_all [_query_ollama, isBackendFailure]

/-- C1: whenever the backend attempt fails (connection refused, timeout, any
non-200 status, or any other transport exception), `generate_response`
returns a result whose `model` field is exactly "fallback-response" and whose
`response` field is the Fallback Responder output for that prompt; the call
is total (no exception reaches the caller) and the backend error text appears
only in the appended log entry, never in the returned result, whose full
field list is given here. -/
theorem backend_failure_returns_fallback (env : GenEnv) (hub : LocalAIHub)
    (user_input model : String) (hfail : isBackendFailure env.outcome = true) :
    (generate_response env hub user_input model).result =
      { response := _create_fallback_response env.now user_input,
        model := "fallback-response",
        time_taken_seconds := round3 (env.t1 - env.t0),
        offline := true,
        request_id := hub.total_requests + 1 } ∧
    (_query_ollama env.outcome user_input model).2.2.isSome = true ∧
    (env.logOk = true →
      (generate_response env hub user_input model).logged =
        some { timestamp := env.logTimestamp, user_input := user_input,
               ai_response := _create_fallback_response env.now user_input,
               model := "fallback-response",
               time_taken_seconds := round3 (env.t1 - env.t0),
               error := (_query_ollama env.outcome user_input model).2.2,
               request_id := hub.total_requests + 1 }) := by
  obtain ⟨h1, h2⟩ := query_ollama_of_failure env.outcome user_input model hfail
  refine ⟨?_, h2, fun hl => ?_⟩ <;>
    simp [generate_response, _save_interaction, h1, *]

/-- Closed instance of `backend_failure_returns_fallback` at a connection
refusal on the prompt "Tell me a joke". -/
theorem backend_failure_returns_fallback_witness :
    isBackendFailure envW.outcome = true ∧
    (generate_response envW (LocalAIHub.init 0) "Tell me a joke" "llama2").result =
      { response := _create_fallback_response envW.now "Tell me a joke",
        model := "fallback-response",
        time_taken_seconds := round3 (envW.t1 - envW.t0),
        offline := true, request_id := 1 } :=
  ⟨by decide,
   (backend_failure_returns_fallback envW (LocalAIHub.init 0) "Tell me a joke"
      "llama2" (by decide)).1⟩

/-- C4: for every prompt that is empty or whitespace-only after trimming,
the /generate handler answers 400 "Prompt cannot be empty" and returns the
orchestrator state unchanged (counter not incremented), appends no log entry,
and posts nothing to the backend (so `generate_response` is never invoked). -/
theorem empty_prompt_rejected_without_side_effects (env : GenEnv)
    (hub : LocalAIHub) (body : RequestBody) (p : String)
    (hp : body.prompt = some p) (he : pyStrip p = "") :
    generate env hub (some body) =
      { response := .error 400 "Prompt cannot be empty", hub := hub,
        logged := none, sent := none } := by
  simp [generate, hp, he]

/-- Closed instance of `empty_prompt_rejected_without_side_effects` on the
whitespace-only prompt "   ". -/
theorem empty_prompt_rejected_without_side_effects_witness :
    (RequestBody.mk (some "   ") (some "llama2")).prompt = some "   " ∧
    pyStrip "   " = "" ∧
    generate envW (LocalAIHub.init 0)
        (some (RequestBody.mk (some "   ") (some "llama2"))) =
      { response := .error 400 "Prompt cannot be empty",
        hub := LocalAIHub.init 0, logged := none, sent := none } :=
  ⟨rfl, by decide,
   empty_prompt_rejected_without_side_effects envW (LocalAIHub.init 0)
     (RequestBody.mk (some "   ") (some "llama2")) "   " rfl (by decide)⟩

/-- C7: the interaction logger never propagates failure: with the write
failing, `generate_response` still returns the same result dict and the same
new state as with the write succeeding, appends nothing, and only emits the
diagnostic "Could not save log: ...". -/
theorem logging_failure_never_affects_result (env : GenEnv) (hub : LocalAIHub)
    (user_input model : String) :
    (generate_response { env with logOk := false } hub user_input model).result =
      (generate_response { env with logOk := true } hub user_input model).result ∧
    (generate_response { env with logOk := false } hub user_input model).hub =
      (generate_response { env with logOk := true } hub user_input model).hub ∧
    (generate_response { env with logOk := false } hub user_input model).logged =
      none ∧
    (generate_response { env with logOk := false } hub user_input model).diagnostic
      = some ("Could not save log: " ++ env.logFailMsg) := by
  refine ⟨rfl, rfl, ?_, ?_⟩ <;> simp [generate_response, _save_interaction]

/-- C8: an HTTP 200 reply whose JSON body lacks the "response" field is
treated as a success: the returned text is the literal "No response
generated", `model` is the requested model (not "fallback-response"), and the
logged `error` is null. -/
theorem http200_missing_field_is_success (env : GenEnv) (hub : LocalAIHub)
    (user_input model : String) (h : env.outcome = .http 200 none) :
    (generate_response env hub user_input model).result.response =
      "No response generated" ∧
    (generate_response env hub user_input model).result.model = model ∧
    (env.logOk = true →
      ((generate_response env hub user_input model).logged.map fun e => e.error)
        = some none) := by
  refine ⟨?_, ?_, fun hl => ?_⟩ <;>
    simp [generate_response, _query_ollama, _save_interaction, h, *]

/-- Closed instance of `http200_missing_field_is_success`. -/
theorem http200_missing_field_is_success_witness :
    ({ envW with outcome := .http 200 none } : GenEnv).outcome =
        .http 200 none ∧
    (generate_response { envW with outcome := .http 200 none }
        (LocalAIHub.init 0) "Hello" "llama2").result.response =
      "No response generated" :=
  ⟨rfl,
   (http200_missing_field_is_success { envW with outcome := .http 200 none }
      (LocalAIHub.init 0) "Hello" "llama2" rfl).1⟩

/-- C9: the claim asserts the counter increment and the read computing
`request_id` are one indivisible operation, so concurrent calls get distinct
ids. In the code they are two separate accesses (src/api.py lines 100 and
123) with the blocking backend call between them and no lock; in the
interleaving model (which is generous to the code in treating the increment
itself as atomic), the schedule A-incr, B-incr, A-read, B-read lets both
completed callers return the same `request_id` 2, and id 1 is returned by
nobody. -/
theorem interleaved_calls_can_return_equal_request_ids :
    (runSched [Tid.a, Tid.b, Tid.a, Tid.b]).a.reqId = some 2 ∧
    (runSched [Tid.a, Tid.b, Tid.a, Tid.b]).b.reqId = some 2 ∧
    (runSched [Tid.a, Tid.b, Tid.a, Tid.b]).a.stepsDone = 2 ∧
    (runSched [Tid.a, Tid.b, Tid.a, Tid.b]).b.stepsDone = 2 := by decide

/-- C6 counterexample: the claim "two calls with the same prompt text and the
same configured default-model name return the same reply text" is false on
the code: rule 4 embeds `datetime.now()`, so the prompt "time" evaluated at
two clock readings one second apart yields two different replies. -/
theorem fallback_depends_on_clock_counterexample :
    _create_fallback_response T1x "time" ≠ _create_fallback_response T2x "time" := by
  decide

/-- C6 amended: the fallback responder is deterministic given the prompt, the
configured default-model name, and the current clock reading; the reply is
moreover clock-independent for every prompt that does not reach rule 4, i.e.
whose lowercase form either lacks "time" or matches one of the rule 1-3
triggers. -/
theorem fallback_deterministic_given_clock (p : String) (t t' : DateTime)
    (h : strContains (pyLower p) "time" = false ∨
      (strContains (pyLower p) "hello" || strContains (pyLower p) "hi" ||
        strContains (pyLower p) "hey" || strContains (pyLower p) "who" ||
        strContains (pyLower p) "what are you" ||
        strContains (pyLower p) "help" ||
        strContains (pyLower p) "what can you do") = true) :
    _create_fallback_response t p = _create_fallback_response t' p := by
  simp only [_create_fallback_response]
  split_ifs with h1 h2 h3 h4 <;> try rfl
  rcases h with h | h <;> simp_all

/-- Closed instance of `fallback_deterministic_given_clock` on the prompt
"Hello there" at two different clock readings. -/
theorem fallback_deterministic_given_clock_witness :
    strContains (pyLower "Hello there") "time" = false ∧
    _create_fallback_response T1x "Hello there" =
      _create_fallback_response T2x "Hello there" :=
  ⟨by decide,
   fallback_deterministic_given_clock "Hello there" T1x T2x (Or.inl (by decide))⟩

theorem generate_response_requestId (env : GenEnv) (hub : LocalAIHub)
    (ui m : String) :
    (generate_response env hub ui m).result.request_id =
      hub.total_requests + 1 := rfl

theorem generate_response_hub_total (env : GenEnv) (hub : LocalAIHub)
    (ui m : String) :
    (generate_response env hub ui m).hub.total_requests =
      hub.total_requests + 1 := rfl

theorem generate_response_time (env : GenEnv) (hub : LocalAIHub)
    (ui m : String) :
    (generate_response env hub ui m).result.time_taken_seconds =
      round3 (env.t1 - env.t0) := rfl

theorem runCalls_ids (calls : List CallInput) (hub : LocalAIHub) :
    ((runCalls hub calls).map fun g => g.result.request_id) =
      List.range' (hub.total_requests + 1) calls.length ∧
    ((runCalls hub calls).map fun g => g.hub.total_requests) =
      List.range' (hub.total_requests + 1) calls.length := by
  induction calls generalizing hub with
  | nil => simp [runCalls]
  | cons c rest ih =>
    obtain ⟨ih1, ih2⟩ := ih (generate_response c.env hub c.user_input c.model).hub
    rw [generate_response_hub_total] at ih1 ih2
    simp only [runCalls, List.map_cons, List.length_cons, List.range'_succ]
    exact ⟨by rw [generate_response_requestId, ih1],
           by rw [generate_response_hub_total, ih2]⟩

theorem runCalls_time_nonneg (calls : List CallInput) (hub : LocalAIHub)
    (h : ∀ c ∈ calls, c.env.t0 ≤ c.env.t1) :
    ∀ g ∈ runCalls hub calls, 0 ≤ g.result.time_taken_seconds := by
  induction calls generalizing hub with
  | nil => simp [runCalls]
  | cons c rest ih =>
    intro g hg
    simp only [runCalls, List.mem_cons] at hg
    rcases hg with rfl | hg
    · rw [generate_response_time]
      have hc := h c (List.mem_cons_self _ _)
      exact round3_nonneg _ (by linarith)
    · exact ih _ (fun c' hc' => h c' (List.mem_cons_of_mem _ hc')) g hg

theorem generate_response_logged_of_ok (env : GenEnv) (hub : LocalAIHub)
    (ui m : String) (h : env.logOk = true) :
    ∃ e, (generate_response env hub ui m).logged = some e ∧
      e.request_id = hub.total_requests + 1 ∧ e.user_input = ui := by
  have hmap : ((generate_response env hub ui m).logged.map
      fun e => (e.request_id, e.user_input)) =
      some (hub.total_requests + 1, ui) := by
    simp [generate_response, _save_interaction, h]
  obtain ⟨e, he, hfe⟩ := Option.map_eq_some'.mp hmap
  exact ⟨e, he, by simpa using congrArg Prod.fst hfe,
         by simpa using congrArg Prod.snd hfe⟩

theorem runCalls_logFile_ids (calls : List CallInput) (hub : LocalAIHub)
    (h : ∀ c ∈ calls, c.env.logOk = true) :
    ((logFile (runCalls hub calls)).map fun e => e.request_id) =
      List.range' (hub.total_requests + 1) calls.length := by
  induction calls generalizing hub with
  | nil => simp [runCalls, logFile]
  | cons c rest ih =>
    obtain ⟨e, he, hid, _⟩ := generate_response_logged_of_ok c.env hub
      c.user_input c.model (h c (List.mem_cons_self _ _))
    have ihr := ih (generate_response c.env hub c.user_input c.model).hub
      (fun c' hc' => h c' (List.mem_cons_of_mem _ hc'))
    rw [generate_response_hub_total] at ihr
    simp only [logFile] at ihr
    simp only [runCalls, logFile, List.filterMap_cons, he, List.map_cons,
      List.length_cons, List.range'_succ]
    rw [hid, ihr]

theorem runCalls_logged_matches (calls : List CallInput) (hub : LocalAIHub)
    (h : ∀ c ∈ calls, c.env.logOk = true) :
    ∀ g ∈ runCalls hub calls,
      ∃ e, g.logged = some e ∧ e.request_id = g.result.request_id := by
  induction calls generalizing hub with
  | nil => simp [runCalls]
  | cons c rest ih =>
    intro g hg
    simp only [runCalls, List.mem_cons] at hg
    rcases hg with rfl | hg
    · obtain ⟨e, he, hid, _⟩ := generate_response_logged_of_ok c.env hub
        c.user_input c.model (h c (List.mem_cons_self _ _))
      exact ⟨e, he, by rw [hid, generate_response_requestId]⟩
    · exact ih _ (fun c' hc' => h c' (List.mem_cons_of_mem _ hc')) g hg

/-- C2: starting from a fresh orchestrator, a sequence of `generate` calls
returns results whose `time_taken_seconds` are all nonnegative (given that
the second clock reading of each call is not earlier than the first) and
whose `request_id`s are exactly 1, 2, ..., n, hence each strictly greater
than the previous call\x27s; the counter starts at 0 and the post-call
counter values 1, 2, ..., n show it is incremented exactly once per call. -/
theorem generate_sequence_time_nonneg_ids_increasing (s : ℚ)
    (calls : List CallInput) (h : ∀ c ∈ calls, c.env.t0 ≤ c.env.t1) :
    (LocalAIHub.init s).total_requests = 0 ∧
    ((runCalls (LocalAIHub.init s) calls).map fun g => g.result.request_id) =
      List.range' 1 calls.length ∧
    List.Chain' (fun g g' => g.result.request_id < g'.result.request_id)
      (runCalls (LocalAIHub.init s) calls) ∧
    (∀ g ∈ runCalls (LocalAIHub.init s) calls,
      0 ≤ g.result.time_taken_seconds) ∧
    ((runCalls (LocalAIHub.init s) calls).map fun g => g.hub.total_requests) =
      List.range' 1 calls.length := by
  obtain ⟨h1, h2⟩ := runCalls_ids calls (LocalAIHub.init s)
  refine ⟨rfl, h1, ?_, runCalls_time_nonneg calls _ h, h2⟩
  rw [← List.chain'_map (fun g : GenReturn => g.result.request_id)
    (R := (· < ·)), h1]
  exact (List.pairwise_lt_range' 1 calls.length).chain'

/-- Closed instance of `generate_sequence_time_nonneg_ids_increasing` on a
two-call sequence. -/
theorem generate_sequence_time_nonneg_ids_increasing_witness :
    (∀ c ∈ callsW, c.env.t0 ≤ c.env.t1) ∧
    ((runCalls (LocalAIHub.init 0) callsW).map fun g => g.result.request_id) =
      List.range' 1 callsW.length :=
  ⟨by decide,
   (generate_sequence_time_nonneg_ids_increasing 0 callsW (by decide)).2.1⟩

/-- C3: with the log writes succeeding, every `generate` call, success or
fallback, appends exactly one record whose `request_id` equals the
`request_id` of the returned result; after n single-threaded calls the log
holds exactly n records whose `request_id`s read 1, 2, ..., n in call order,
a non-decreasing sequence. -/
theorem each_call_appends_one_matching_log_line (s : ℚ)
    (calls : List CallInput) (h : ∀ c ∈ calls, c.env.logOk = true) :
    (logFile (runCalls (LocalAIHub.init s) calls)).length = calls.length ∧
    (∀ g ∈ runCalls (LocalAIHub.init s) calls,
      ∃ e, g.logged = some e ∧ e.request_id = g.result.request_id) ∧
    ((logFile (runCalls (LocalAIHub.init s) calls)).map fun e => e.request_id)
      = List.range' 1 calls.length ∧
    List.Chain' (· ≤ ·)
      ((logFile (runCalls (LocalAIHub.init s) calls)).map fun e =>
        e.request_id) := by
  have hids := runCalls_logFile_ids calls (LocalAIHub.init s) h
  refine ⟨?_, runCalls_logged_matches calls _ h, hids, ?_⟩
  · have := congrArg List.length hids
    simpa using this
  · rw [hids]
    exact (List.pairwise_le_range' 1 calls.length).chain'

/-- Closed instance of `each_call_appends_one_matching_log_line` on a
two-call sequence. -/
theorem each_call_appends_one_matching_log_line_witness :
    (∀ c ∈ callsW, c.env.logOk = true) ∧
    (logFile (runCalls (LocalAIHub.init 0) callsW)).length = callsW.length :=
  ⟨by decide,
   (each_call_appends_one_matching_log_line 0 callsW (by decide)).1⟩

theorem digitChar_isDigit (n : Nat) (h : n < 10) :
    (digitChar n).isDigit = true := by
  interval_cases n <;> decide

theorem isYmdHMS_strftime (t : DateTime) :
    isYmdHMS (strftimeYmdHMS t) = true := by
  have h10 : ∀ m : Nat, m % 10 < 10 := fun m => Nat.mod_lt _ (by norm_num)
  simp only [strftimeYmdHMS, pad4d, pad2d, isYmdHMS, List.cons_append,
    List.nil_append]
  simp [digitChar_isDigit _ (h10 _)]

/-- C5: the fallback rules are evaluated first-match-wins in the order
greeting, identity, capability, time, generic, by case-insensitive substring
matching; rule 1 fires whenever its triggers occur regardless of the later
rules (in particular on every prompt containing both a rule-1 trigger and
"time"), and a prompt reaching rule 4 gets a reply embedding a timestamp
formatted `YYYY-MM-DD HH:MM:SS`. -/
theorem fallback_rules_first_match_wins (p : String) (t : DateTime) :
    ((strContains (pyLower p) "hello" || strContains (pyLower p) "hi" ||
        strContains (pyLower p) "hey") = true →
      _create_fallback_response t p =
        "Hi there! I\x27m your local AI (" ++ DEFAULT_AI_MODEL ++
          ") running offline on your computer.") ∧
    ((strContains (pyLower p) "hello" || strContains (pyLower p) "hi" ||
        strContains (pyLower p) "hey") = false →
      (strContains (pyLower p) "who" ||
        strContains (pyLower p) "what are you") = true →
      _create_fallback_response t p =
        "I\x27m LocalAIHub, your offline AI assistant using the " ++
          DEFAULT_AI_MODEL ++ " model.") ∧
    ((strContains (pyLower p) "hello" || strContains (pyLower p) "hi" ||
        strContains (pyLower p) "hey") = false →
      (strContains (pyLower p) "who" ||
        strContains (pyLower p) "what are you") = false →
      (strContains (pyLower p) "help" ||
        strContains (pyLower p) "what can you do") = true →
      _create_fallback_response t p =
        "I can answer questions and help with tasks, all offline for privacy and speed.") ∧
    ((strContains (pyLower p) "hello" || strContains (pyLower p) "hi" ||
        strContains (pyLower p) "hey") = false →
      (strContains (pyLower p) "who" ||
        strContains (pyLower p) "what are you") = false →
      (strContains (pyLower p) "help" ||
        strContains (pyLower p) "what can you do") = false →
      strContains (pyLower p) "time" = true →
      _create_fallback_response t p =
          "It\x27s currently " ++ strftimeYmdHMS t ++ "." ∧
        isYmdHMS (strftimeYmdHMS t) = true) ∧
    ((strContains (pyLower p) "hello" || strContains (pyLower p) "hi" ||
        strContains (pyLower p) "hey") = false →
      (strContains (pyLower p) "who" ||
        strContains (pyLower p) "what are you") = false →
      (strContains (pyLower p) "help" ||
        strContains (pyLower p) "what can you do") = false →
      strContains (pyLower p) "time" = false →
      _create_fallback_response t p =
        "I\x27m your offline AI (" ++ DEFAULT_AI_MODEL ++ "). You said: \x27"
          ++ pyTake50 p ++ "...\x27 - I\x27m handling this locally for privacy.") := by
  refine ⟨fun h1 => ?_, fun h1 h2 => ?_, fun h1 h2 h3 => ?_,
    fun h1 h2 h3 h4 => ⟨?_, isYmdHMS_strftime t⟩, fun h1 h2 h3 h4 => ?_⟩ <;>
    simp [_create_fallback_response, h1, *]

/-- Closed instance of `fallback_rules_first_match_wins`: the prompt
"Hello time" contains both a rule-1 trigger and "time" and gets the greeting
reply of rule 1. -/
theorem fallback_rules_first_match_wins_witness :
    (strContains (pyLower "Hello time") "hello" ||
      strContains (pyLower "Hello time") "hi" ||
      strContains (pyLower "Hello time") "hey") = true ∧
    strContains (pyLower "Hello time") "time" = true ∧
    _create_fallback_response T0 "Hello time" =
      "Hi there! I\x27m your local AI (" ++ DEFAULT_AI_MODEL ++
        ") running offline on your computer." :=
  ⟨by decide, by decide,
   (fallback_rules_first_match_wins "Hello time" T0).1 (by decide)⟩

/-- C10: for every prompt accepted by validation (non-empty after
stripping), the handler passes the original untrimmed text verbatim to the
backend payload, stores it untrimmed as `user_input` in the log entry, and,
on a backend failure, hands it untrimmed to the fallback responder; stripping
is applied only in the validation test. -/
theorem prompt_passed_verbatim (env : GenEnv) (hub : LocalAIHub)
    (body : RequestBody) (p : String) (hp : body.prompt = some p)
    (hne : pyStrip p ≠ "") :
    (generate env hub (some body)).sent =
      some { model := body.model.getD DEFAULT_AI_MODEL, prompt := p,
             stream := false } ∧
    (∀ e, (generate env hub (some body)).logged = some e →
      e.user_input = p) ∧
    (isBackendFailure env.outcome = true →
      ∃ res, (generate env hub (some body)).response = .ok res ∧
        res.response = _create_fallback_response env.now p) := by
  have hbe : (pyStrip p == "") = false := by
    simpa using hne
  refine ⟨?_, ?_, fun hfail => ?_⟩
  · simp [generate, hp, hbe, generate_response, _query_ollama]
  · intro e he
    simp only [generate, hp, hbe, Bool.false_eq_true, if_false] at he
    cases hl : env.logOk with
    | false => simp [generate_response, _save_interaction, hl] at he
    | true =>
        obtain ⟨e', he', _, hui⟩ := generate_response_logged_of_ok env hub p
          (body.model.getD DEFAULT_AI_MODEL) hl
        rw [he'] at he
        cases he
        exact hui
  · obtain ⟨h1, _⟩ := query_ollama_of_failure env.outcome p
      (body.model.getD DEFAULT_AI_MODEL) hfail
    refine ⟨(generate_response env hub p
      (body.model.getD DEFAULT_AI_MODEL)).result, ?_, ?_⟩
    · simp [generate, hp, hbe]
    · simp [generate_response, h1]

/-- Closed instance of `prompt_passed_verbatim` on the untrimmed prompt
"  hi  ": the backend payload carries it verbatim. -/
theorem prompt_passed_verbatim_witness :
    (RequestBody.mk (some "  hi  ") none).prompt = some "  hi  " ∧
    pyStrip "  hi  " ≠ "" ∧
    (generate envW (LocalAIHub.init 0)
        (some (RequestBody.mk (some "  hi  ") none))).sent =
      some { model := DEFAULT_AI_MODEL, prompt := "  hi  ", stream := false } :=
  ⟨rfl, by decide,
   (prompt_passed_verbatim envW (LocalAIHub.init 0)
      (RequestBody.mk (some "  hi  ") none) "  hi  " rfl (by decide)).1⟩

end LocalAIHubModel
